/-
  Verification of the Matrix faucet bot's command-dispatch core
  (src/bot/index.ts of patractlabs/substrate-matrix-faucet).

  The bot's `Room.timeline` handler is embedded as a pure function from
  (configuration, address-decode oracle, chat event) to an explicit record
  of its observable effects: warning log lines, chat messages sent
  synchronously, and the backend HTTP call issued (if any).  The
  asynchronous `.then` / `.catch` continuations of the two backend calls
  are embedded as separate pure functions from the backend response to the
  reply text.

  JavaScript numbers are embedded as exact rationals extended with NaN and
  signed infinities (`JsNum`).  All numeric values exercised by the
  theorems below are exactly representable, so no floating-point rounding
  is modelled.  `Number(string)` coercion follows the ECMAScript
  `StringNumericLiteral` grammar; number-to-string display follows the
  ECMAScript `Number::toString` layout rules applied to the exact decimal
  expansion.
-/
import Mathlib

set_option maxRecDepth 40000

namespace FaucetBot

/-! ### JavaScript numbers

Exact rationals stand in for IEEE-754 doubles: every value the theorems
below exercise is exactly representable, so no rounding is modelled.
The rationals are given as an explicit numerator/denominator structure
whose operations are plain `Int`/`Nat` arithmetic, so that concrete
runs of the model reduce inside the kernel. -/

/-- An exact rational: numerator and positive denominator, kept in
lowest terms by the smart constructor `ratMk`. -/
structure ExactRat where
  n : Int
  d : Nat
deriving DecidableEq

/-- Normalize `n / d` to lowest terms (`d = 0` never arises at call
sites and is mapped to `0`). -/
def ratMk (n : Int) (d : Nat) : ExactRat :=
  if d = 0 then ⟨0, 1⟩
  else
    let g := Nat.gcd n.natAbs d
    ⟨n / (g : Int), d / g⟩

def ratOfNat (m : Nat) : ExactRat := ⟨(m : Int), 1⟩

def ratAdd (a b : ExactRat) : ExactRat :=
  ratMk (a.n * (b.d : Int) + b.n * (a.d : Int)) (a.d * b.d)

def ratMul (a b : ExactRat) : ExactRat := ratMk (a.n * b.n) (a.d * b.d)

/-- Exact division (callers ensure `b ≠ 0`). -/
def ratDivE (a b : ExactRat) : ExactRat :=
  if 0 ≤ b.n then ratMk (a.n * (b.d : Int)) (a.d * b.n.natAbs)
  else ratMk (-(a.n * (b.d : Int))) (a.d * b.n.natAbs)

def ratNeg (a : ExactRat) : ExactRat := ⟨-a.n, a.d⟩

def ratPow10 (k : Nat) : ExactRat := ⟨((10 ^ k : Nat) : Int), 1⟩

/-- A JavaScript number value: an exact rational, NaN, or a signed
infinity (`inf true` is `+Infinity`). -/
inductive JsNum where
  | num (q : ExactRat)
  | nan
  | inf (pos : Bool)
deriving DecidableEq

/-- JavaScript division on `JsNum` (exact on rationals; `x/0` gives a
signed infinity, `0/0` and operations on NaN give NaN). -/
def jsDiv : JsNum → JsNum → JsNum
  | .nan, _ => .nan
  | _, .nan => .nan
  | .inf _, .inf _ => .nan
  | .inf p, .num b => if b.n < 0 then .inf (!p) else .inf p
  | .num _, .inf _ => .num (ratOfNat 0)
  | .num a, .num b =>
      if b.n = 0 then (if a.n = 0 then .nan else .inf (decide (0 < a.n)))
      else .num (ratDivE a b)

/-! ### JavaScript string primitives

The string methods the bot uses (`split` with a one-character separator,
`trim`, `startsWith`, `endsWith`) are embedded as structurally recursive
functions on character lists, following their ECMAScript semantics. -/

/-- `s.split(c)` on character lists: split at every occurrence of `c`,
keeping empty segments; the empty string yields one empty segment. -/
def splitOnChar (c : Char) : List Char → List (List Char)
  | [] => [[]]
  | x :: xs =>
      let r := splitOnChar c xs
      if x = c then [] :: r
      else
        match r with
        | [] => [[x]]
        | h :: t => (x :: h) :: t

/-- JavaScript `s.split(sep)` for a one-character separator `sep`. -/
def jsSplitChar (c : Char) (s : String) : List String :=
  (splitOnChar c s.data).map String.mk

/-- ECMAScript WhiteSpace / LineTerminator, as removed by `trim`. -/
def isJsWhitespace (c : Char) : Bool :=
  c = ' ' || c = '\t' || c = '\n' || c = '\r' ||
  c = '\x0b' || c = '\x0c' || c.toNat = 0xa0 || c.toNat = 0xfeff ||
  c.toNat = 0x2028 || c.toNat = 0x2029

/-- JavaScript `s.trim()`. -/
def jsTrim (s : String) : String :=
  ⟨((s.data.dropWhile isJsWhitespace).reverse.dropWhile isJsWhitespace).reverse⟩

/-- Whether the first list is an initial segment of the second. -/
def listStartsWith : List Char → List Char → Bool
  | [], _ => true
  | _ :: _, [] => false
  | a :: as, b :: bs => a = b && listStartsWith as bs

/-- JavaScript `s.startsWith(pat)`. -/
def jsStartsWith (s pat : String) : Bool := listStartsWith pat.data s.data

/-- JavaScript `s.endsWith(pat)`. -/
def jsEndsWith (s pat : String) : Bool :=
  listStartsWith pat.data.reverse s.data.reverse

/-! ### `Number(string)` coercion (ECMAScript ToNumber on strings) -/

/-- Numeric value of a hexadecimal digit character. -/
def hexVal (c : Char) : Nat :=
  if c.isDigit then c.toNat - '0'.toNat
  else if 'a' ≤ c ∧ c ≤ 'f' then c.toNat - 'a'.toNat + 10
  else c.toNat - 'A'.toNat + 10

def isHexDigit (c : Char) : Bool :=
  c.isDigit || ('a' ≤ c && c ≤ 'f') || ('A' ≤ c && c ≤ 'F')

def isOctDigit (c : Char) : Bool := '0' ≤ c && c ≤ '7'

def isBinDigit (c : Char) : Bool := c = '0' || c = '1'

/-- Value of a digit string in the given base (digits assumed valid). -/
def natOfDigits (base : Nat) (ds : List Char) : Nat :=
  ds.foldl (fun acc c => acc * base + hexVal c) 0

/-- Parse a non-empty all-digit string in the given base. -/
def parseRadixDigits (digitOk : Char → Bool) (base : Nat) (ds : List Char) :
    Option ExactRat :=
  if ds ≠ [] ∧ ds.all digitOk then some (ratOfNat (natOfDigits base ds))
  else none

/-- Parse the exponent tail of a decimal literal (`""`, or `e`/`E`
followed by an optionally signed non-empty digit string). -/
def parseExpTail : List Char → Option Int
  | [] => some 0
  | c :: rest =>
      if c = 'e' ∨ c = 'E' then
        match rest with
        | '+' :: ds =>
            if ds ≠ [] ∧ ds.all Char.isDigit then
              some ((natOfDigits 10 ds : Nat) : Int)
            else none
        | '-' :: ds =>
            if ds ≠ [] ∧ ds.all Char.isDigit then
              some (-((natOfDigits 10 ds : Nat) : Int))
            else none
        | ds =>
            if ds ≠ [] ∧ ds.all Char.isDigit then
              some ((natOfDigits 10 ds : Nat) : Int)
            else none
      else none

/-- Scale a rational by an integer power of ten. -/
def scaleByPow10 (m : ExactRat) (e : Int) : ExactRat :=
  if 0 ≤ e then ratMul m (ratPow10 e.toNat)
  else ratDivE m (ratPow10 (-e).toNat)

/-- Parse an (unsigned) ECMAScript decimal literal:
`Digits [. Digits] [Exp]` or `. Digits [Exp]`. -/
def parseDecLit (cs : List Char) : Option ExactRat :=
  let intPart := cs.takeWhile Char.isDigit
  let rest := cs.dropWhile Char.isDigit
  match rest with
  | '.' :: rest2 =>
      let fracPart := rest2.takeWhile Char.isDigit
      let rest3 := rest2.dropWhile Char.isDigit
      if intPart = [] ∧ fracPart = [] then none
      else
        (parseExpTail rest3).map fun e =>
          scaleByPow10
            (ratAdd (ratOfNat (natOfDigits 10 intPart))
              (ratDivE (ratOfNat (natOfDigits 10 fracPart))
                (ratPow10 fracPart.length))) e
  | _ =>
      if intPart = [] then none
      else (parseExpTail rest).map fun e =>
        scaleByPow10 (ratOfNat (natOfDigits 10 intPart)) e

/-- Parse the body following an explicit `+`/`-` sign: only `Infinity`
or a decimal literal is allowed (no radix prefixes after a sign). -/
def parseSignedTail (pos : Bool) (cs : List Char) : JsNum :=
  if cs = "Infinity".data then .inf pos
  else
    match parseDecLit cs with
    | some q => .num (if pos then q else ratNeg q)
    | none => .nan

/-- Parse an unsigned numeric literal: `Infinity`, a `0x`/`0o`/`0b`
radix literal, or a decimal literal. -/
def parseUnsignedLit (cs : List Char) : JsNum :=
  if cs = "Infinity".data then .inf true
  else
    match cs with
    | '0' :: x :: rest =>
        if x = 'x' ∨ x = 'X' then
          match parseRadixDigits isHexDigit 16 rest with
          | some q => .num q
          | none => .nan
        else if x = 'o' ∨ x = 'O' then
          match parseRadixDigits isOctDigit 8 rest with
          | some q => .num q
          | none => .nan
        else if x = 'b' ∨ x = 'B' then
          match parseRadixDigits isBinDigit 2 rest with
          | some q => .num q
          | none => .nan
        else
          match parseDecLit cs with
          | some q => .num q
          | none => .nan
    | _ =>
        match parseDecLit cs with
        | some q => .num q
        | none => .nan

/-- ECMAScript `ToNumber` applied to a string, as performed by the
`Number(...)` calls in the bot: trim whitespace, map the empty string to
`0`, otherwise parse a `StringNumericLiteral`, giving NaN on failure. -/
def jsToNumber (s : String) : JsNum :=
  let t := jsTrim s
  if t = "" then .num (ratOfNat 0)
  else
    match t.data with
    | '+' :: rest => parseSignedTail true rest
    | '-' :: rest => parseSignedTail false rest
    | cs => parseUnsignedLit cs

/-! ### Number-to-string display (ECMAScript `Number::toString`)

The bot interpolates numbers into template literals, which invokes
`Number::toString` with radix 10.  On our exact rationals the "shortest
round-tripping digits" of the double are its exact terminating decimal
expansion; the ECMAScript layout rules are then applied to those digits.
Any IEEE-754 double is a dyadic rational, whose decimal expansion
terminates within 1100 digits, so the search bound below covers every
value a run of the program can produce. -/

/-- Least `k ≤ 1100` such that `q * 10^k` is an integer. -/
def decExpLen (q : ExactRat) : Option Nat :=
  (List.range 1101).find? fun k => (ratMul q (ratPow10 k)).d = 1

def zeros (n : Nat) : String := String.mk (List.replicate n '0')

/-- Split `m` as `s * 10^t` with `s` not divisible by `10`; returns
`(s, t)`.  The first argument is recursion fuel. -/
def stripTrailing10 : Nat → Nat → Nat × Nat
  | 0, m => (m, 0)
  | fuel + 1, m =>
      if m ≠ 0 ∧ m % 10 = 0 then
        let p := stripTrailing10 fuel (m / 10)
        (p.1, p.2 + 1)
      else (m, 0)

/-- ECMAScript layout of a positive rational with terminating decimal
expansion; positions follow `Number::toString` (integer form up to
`10^21`, plain decimal form down to `10^-6`, exponent form beyond). -/
def fmtPosRat (q : ExactRat) : String :=
  match decExpLen q with
  | none => Int.repr q.n ++ "/" ++ Nat.repr q.d
  | some k0 =>
      let m := (ratMul q (ratPow10 k0)).n.toNat
      let st := stripTrailing10 (Nat.toDigits 10 m).length m
      let digitsStr := Nat.repr st.1
      let k := digitsStr.length
      let n : Int := (k : Int) + st.2 - k0
      if (k : Int) ≤ n ∧ n ≤ 21 then digitsStr ++ zeros (n - k).toNat
      else if 0 < n ∧ n ≤ 21 then
        digitsStr.take n.toNat ++ "." ++ digitsStr.drop n.toNat
      else if -6 < n ∧ n ≤ 0 then
        "0." ++ zeros (-n).toNat ++ digitsStr
      else
        let e := n - 1
        let mant :=
          if k = 1 then digitsStr
          else digitsStr.take 1 ++ "." ++ digitsStr.drop 1
        mant ++ "e" ++ (if 0 ≤ e then "+" else "-") ++ Nat.repr e.natAbs

/-- Template-literal rendering of a `JsNum`. -/
def jsNumToString : JsNum → String
  | .nan => "NaN"
  | .inf true => "Infinity"
  | .inf false => "-Infinity"
  | .num q =>
      if q.n = 0 then "0"
      else if q.n < 0 then "-" ++ fmtPosRat (ratNeg q)
      else fmtPosRat q

/-! ### Backend API data (`src/types.ts` shapes as used by the bot) -/

/-- `GET /balance` response `{ balance: string|number }` as consumed via
`Number(res.data.balance)`. -/
structure BalanceResponse where
  balance : String
deriving DecidableEq

/-- `POST /bot-endpoint` response `{ hash?: string, error?: string }`;
`none` models an absent, `undefined` or `null` field. -/
structure DripResponse where
  hash : Option String
  error : Option String
deriving DecidableEq

/-- JSON body of `POST /bot-endpoint`. -/
structure DripRequestBody where
  address : String
  amount : JsNum
  parachain_id : String
  sender : String
deriving DecidableEq

/-- The backend HTTP call issued by one dispatch, if any. -/
inductive BackendCall where
  | getBalance
  | postDrip (body : DripRequestBody)
deriving DecidableEq

/-! ### Configuration -/

/-- The environment-derived configuration the dispatch handler reads
(`MATRIX_ACCESS_TOKEN` and `BACKEND_URL` only parameterise the clients
and are omitted). -/
structure Env where
  MATRIX_BOT_USER_ID : String
  DRIP_AMOUNT : JsNum
  FAUCET_IGNORE_LIST : String
  NETWORK_DECIMALS : Nat
  NETWORK_UNIT : String
deriving DecidableEq

/-- Remove the first occurrence of `c` from a character list. -/
def removeFirstChar (c : Char) : List Char → List Char
  | [] => []
  | x :: xs => if x = c then xs else x :: removeFirstChar c xs

/-- JavaScript `s.replace(c, '')` with a single-character string
pattern: only the FIRST occurrence is removed. -/
def jsReplaceFirst (c : Char) (s : String) : String :=
  ⟨removeFirstChar c s.data⟩

/-- `FAUCET_IGNORE_LIST.split(',').map((item) => item.replace('"', ''))`
(src/bot/index.ts lines 55-57). -/
def parseIgnoreList (s : String) : List String :=
  (jsSplitChar ',' s).map (jsReplaceFirst '"')

def ignoreListOf (env : Env) : List String :=
  parseIgnoreList env.FAUCET_IGNORE_LIST

/-! ### Reply texts and backend-response continuations -/

def genericDripError : String :=
  "An unexpected error occured, please check the server logs"

def balanceErrorReply : String :=
  "An error occured, please check the server logs."

/-- `printHelpMessage`'s text: optional `"<message> - "` prefix followed
by the static command list. -/
def printHelpMessageText (unit msg : String) : String :=
  (if msg = "" then "" else msg ++ " - ") ++
  "The following commands are supported:\n" ++
  "!balance - Get the faucet's balance.\n" ++
  "!drip <Address>[:ParachainId] - Send " ++ unit ++
  "s to <Address>, if the optional suffix `:SomeParachainId` is given a teleport will be issued.\n" ++
  "!help - Print this message"

/-- Modelled from the spec: `isDripSuccessResponse` is imported from
`src/guards.ts`, which is not among the provided sources.  The spec
says a drip response is "Discriminated by presence/absence of a
non-empty hash", and the call site comments "if hash is null or empty,
something went wrong": success exactly when the hash field is present
and non-empty. -/
def isDripSuccessResponse (res : DripResponse) : Bool :=
  match res.hash with
  | some h => h ≠ ""
  | none => false

/-- JavaScript `a || b` where `a` is an optional string: `undefined`
and `""` are falsy. -/
def jsOrString (a : Option String) (b : String) : String :=
  match a with
  | some s => if s = "" then b else s
  | none => b

/-- Template-literal rendering of the optional hash field (an absent
field would print as `undefined`). -/
def hashText (h : Option String) : String := h.getD "undefined"

/-- Reply built by the `.then` continuation of `POST /bot-endpoint`
(src/bot/index.ts lines 182-190). -/
def dripThenMessage (sender : String) (dripAmount : JsNum) (unit : String)
    (res : DripResponse) : String :=
  if isDripSuccessResponse res then
    "Sent " ++ sender ++ " " ++ jsNumToString dripAmount ++ " " ++ unit ++
      "s. Extrinsic hash: " ++ hashText res.hash
  else jsOrString res.error genericDripError

/-- Reply built by the `.catch` continuation of `POST /bot-endpoint`
from the exception's message (`(e as Error).message || ...`). -/
def dripCatchMessage (errMessage : String) : String :=
  if errMessage = "" then genericDripError else errMessage

/-- Reply built by the `.then` continuation of `GET /balance`
(src/bot/index.ts lines 139-146). -/
def balanceThenMessage (env : Env) (res : BalanceResponse) : String :=
  let balance := jsToNumber res.balance
  "The faucet has " ++
    jsNumToString (jsDiv balance (.num (ratPow10 env.NETWORK_DECIMALS))) ++
    " " ++ env.NETWORK_UNIT ++ "s remaining."

/-- Reply built by the `.catch` continuation of `GET /balance`. -/
def balanceCatchMessage : String := balanceErrorReply

/-! ### The `Room.timeline` handler -/

/-- The slice of a Matrix event the handler reads. -/
structure MatrixEvent where
  type : String
  sender : Option String
  roomId : String
  body : String

/-- Observable effects of one dispatch: warning-level log lines, chat
messages sent synchronously (before any backend response arrives), and
the backend call issued. -/
structure HandlerResult where
  warnLogs : List String
  messages : List String
  call : Option BackendCall
deriving DecidableEq

def ignoredWarn (sender : String) : String :=
  "🏴‍☠️ Ignored request from an ignored account: " ++ sender

def addressMissingWarn : String := "Address not provided, skipping"

/-- JavaScript truthiness of an optional string. -/
def jsTruthyOpt : Option String → Bool
  | some s => if s = "" then false else true
  | none => false

/-- `arg0.trim().split(':')[0]` — the address part of the `!drip`
argument (src/bot/index.ts line 158). -/
def dripAddress (a0 : String) : String :=
  (jsSplitChar ':' (jsTrim a0)).headD ""

/-- `arg0_processed[1] ? arg0_processed[1] : ''` — the parachain-id part
of the `!drip` argument (src/bot/index.ts line 159). -/
def dripParachainId (a0 : String) : String :=
  match (jsSplitChar ':' (jsTrim a0))[1]? with
  | some p => if p = "" then "" else p
  | none => ""

/-- The `Room.timeline` handler (src/bot/index.ts lines 111-204) as a
pure function.  `decodeOk` is the oracle for the external
`decodeAddress` from `@polkadot/keyring`: `true` when decoding
succeeds, `false` when it throws. -/
def handleRoomTimeline (env : Env) (decodeOk : String → Bool)
    (ev : MatrixEvent) : HandlerResult :=
  if ev.type ≠ "m.room.message" then ⟨[], [], none⟩
  else
    match ev.sender with
    | none => ⟨[], [], none⟩
    | some sender =>
      if sender = "" ∨ sender = env.MATRIX_BOT_USER_ID then ⟨[], [], none⟩
      else if sender ∈ ignoreListOf env then ⟨[ignoredWarn sender], [], none⟩
      else
        let parts := jsSplitChar ' ' ev.body
        let action := parts.headD ""
        let arg0 := parts[1]?
        let arg1 := parts[2]?
        if action = "!balance" then ⟨[], [], some .getBalance⟩
        else if action = "!drip" then
          if jsTruthyOpt arg0 = false then ⟨[addressMissingWarn], [], none⟩
          else
            let a0 := arg0.getD ""
            let address := dripAddress a0
            let parachain_id := dripParachainId a0
            if decodeOk address = false then
              ⟨[], [sender ++ " provided an incompatible address."], none⟩
            else
              let dripAmount :=
                if jsEndsWith sender ":matrix.parity.io" = true ∧
                    jsTruthyOpt arg1 = true then
                  jsToNumber (arg1.getD "")
                else env.DRIP_AMOUNT
              ⟨[], [], some (.postDrip ⟨address, dripAmount, parachain_id, sender⟩)⟩
        else if action = "!help" then
          ⟨[], [printHelpMessageText env.NETWORK_UNIT ""], none⟩
        else if jsStartsWith action "!" then
          ⟨[], [printHelpMessageText env.NETWORK_UNIT "Unknown command"], none⟩
        else ⟨[], [], none⟩

/-! ### Theorems -/

/-- A concrete configuration matching the defaults of the env-var
schema, used to instantiate the universally quantified theorems. -/
def sampleEnv : Env :=
  { MATRIX_BOT_USER_ID := "@faucet:matrix.org"
    DRIP_AMOUNT := .num (ratMk 1 2)
    FAUCET_IGNORE_LIST := ""
    NETWORK_DECIMALS := 12
    NETWORK_UNIT := "UNIT" }

/-- C1: a drip response whose hash is absent/null or the empty string is
treated as a failure — the success guard is false, and the reply is the
backend-supplied error message when that is a non-empty string and the
generic fallback otherwise, never the success confirmation. -/
theorem drip_empty_or_null_hash_is_failure (sender : String) (amt : JsNum)
    (unit : String) (res : DripResponse)
    (h : res.hash = none ∨ res.hash = some "") :
    isDripSuccessResponse res = false ∧
    dripThenMessage sender amt unit res = jsOrString res.error genericDripError := by
  have hfail : isDripSuccessResponse res = false := by
    rcases h with h | h <;> simp [isDripSuccessResponse, h]
  exact ⟨hfail, by simp [dripThenMessage, hfail]⟩

theorem drip_empty_or_null_hash_is_failure_witness :
    isDripSuccessResponse ⟨some "", none⟩ = false ∧
    dripThenMessage "@alice:example.org" (.num (ratMk 1 2)) "UNIT" ⟨some "", none⟩ =
      jsOrString (DripResponse.mk (some "") none).error genericDripError :=
  drip_empty_or_null_hash_is_failure "@alice:example.org" (.num (ratMk 1 2)) "UNIT"
    ⟨some "", none⟩ (Or.inr rfl)

/-- C3: an inbound message whose sender passes the self-filter but is on
the ignore list produces no backend call and no chat message, only the
warning log line. -/
theorem ignored_sender_no_call_no_reply (env : Env) (dec : String → Bool)
    (s room body : String)
    (hs : ¬(s = "" ∨ s = env.MATRIX_BOT_USER_ID))
    (hmem : s ∈ ignoreListOf env) :
    handleRoomTimeline env dec ⟨"m.room.message", some s, room, body⟩ =
      ⟨[ignoredWarn s], [], none⟩ := by
  simp [handleRoomTimeline, hs, hmem]

theorem ignored_sender_no_call_no_reply_witness :
    handleRoomTimeline ⟨"@faucet:matrix.org", .num (ratMk 1 2), "@bad:matrix.org", 12, "UNIT"⟩
      (fun _ => true)
      ⟨"m.room.message", some "@bad:matrix.org", "!room", "!drip addr"⟩ =
      ⟨[ignoredWarn "@bad:matrix.org"], [], none⟩ :=
  ignored_sender_no_call_no_reply _ _ _ _ _ (by decide) (by decide)

/-- C4: a `!drip` whose address fails external decoding produces exactly
the reply `"<sender> provided an incompatible address."` and no backend
call. -/
theorem invalid_address_reply_no_call (env : Env) (dec : String → Bool)
    (s room body a0 : String) (rest : List String)
    (hs : ¬(s = "" ∨ s = env.MATRIX_BOT_USER_ID))
    (hmem : s ∉ ignoreListOf env)
    (hsplit : jsSplitChar ' ' body = "!drip" :: a0 :: rest)
    (ha0 : a0 ≠ "")
    (hdec : dec (dripAddress a0) = false) :
    handleRoomTimeline env dec ⟨"m.room.message", some s, room, body⟩ =
      ⟨[], [s ++ " provided an incompatible address."], none⟩ := by
  simp [handleRoomTimeline, hs, hmem, hsplit, jsTruthyOpt, ha0, hdec]

theorem invalid_address_reply_no_call_witness :
    handleRoomTimeline sampleEnv (fun _ => false)
      ⟨"m.room.message", some "@alice:example.org", "!room", "!drip 5ABC"⟩ =
      ⟨[], ["@alice:example.org provided an incompatible address."], none⟩ :=
  invalid_address_reply_no_call sampleEnv (fun _ => false)
    "@alice:example.org" "!room" "!drip 5ABC" "5ABC" []
    (by decide) (by decide) (by decide) (by decide) rfl

/-- C2: with a third token supplied, the amount POSTed to the backend is
the numeric coercion of that token exactly when the sender's identity
ends with `:matrix.parity.io`, and the configured default otherwise. -/
theorem drip_amount_override_trusted_only (env : Env) (dec : String → Bool)
    (s room body a0 a1 : String)
    (hs : ¬(s = "" ∨ s = env.MATRIX_BOT_USER_ID))
    (hmem : s ∉ ignoreListOf env)
    (hsplit : jsSplitChar ' ' body = ["!drip", a0, a1])
    (ha0 : a0 ≠ "") (ha1 : a1 ≠ "")
    (hdec : dec (dripAddress a0) = true) :
    (handleRoomTimeline env dec ⟨"m.room.message", some s, room, body⟩).call =
      some (.postDrip
        { address := dripAddress a0
          amount :=
            if jsEndsWith s ":matrix.parity.io" = true then jsToNumber a1
            else env.DRIP_AMOUNT
          parachain_id := dripParachainId a0
          sender := s }) := by
  simp [handleRoomTimeline, hs, hmem, hsplit, jsTruthyOpt, ha0, ha1, hdec]

theorem drip_amount_override_trusted_only_witness :
    (handleRoomTimeline sampleEnv (fun _ => true)
      ⟨"m.room.message", some "@u:matrix.parity.io", "!room", "!drip addr 10"⟩).call =
      some (.postDrip ⟨"addr", .num ⟨10, 1⟩, "", "@u:matrix.parity.io"⟩) := by
  have h := drip_amount_override_trusted_only sampleEnv (fun _ => true)
    "@u:matrix.parity.io" "!room" "!drip addr 10" "addr" "10"
    (by decide) (by decide) (by decide) (by decide) (by decide) rfl
  exact h.trans (by decide)

/-- C5: the `:`-separated suffix of the `!drip` address argument is sent
as `parachain_id` in the POST body together with the address, amount and
sender; with no suffix, `parachain_id` is the empty string. -/
theorem drip_parachain_id_from_suffix (env : Env) (dec : String → Bool)
    (s room bodyA a0A addrA pid bodyB a0B addrB : String)
    (hs : ¬(s = "" ∨ s = env.MATRIX_BOT_USER_ID))
    (hmem : s ∉ ignoreListOf env)
    (hsplitA : jsSplitChar ' ' bodyA = ["!drip", a0A])
    (ha0A : a0A ≠ "")
    (hprocA : jsSplitChar ':' (jsTrim a0A) = [addrA, pid])
    (hpid : pid ≠ "")
    (hdecA : dec addrA = true)
    (hsplitB : jsSplitChar ' ' bodyB = ["!drip", a0B])
    (ha0B : a0B ≠ "")
    (hprocB : jsSplitChar ':' (jsTrim a0B) = [addrB])
    (hdecB : dec addrB = true) :
    (handleRoomTimeline env dec ⟨"m.room.message", some s, room, bodyA⟩).call =
      some (.postDrip ⟨addrA, env.DRIP_AMOUNT, pid, s⟩) ∧
    (handleRoomTimeline env dec ⟨"m.room.message", some s, room, bodyB⟩).call =
      some (.postDrip ⟨addrB, env.DRIP_AMOUNT, "", s⟩) := by
  constructor
  · have haddr : dripAddress a0A = addrA := by simp [dripAddress, hprocA]
    have hpar : dripParachainId a0A = pid := by
      simp [dripParachainId, hprocA, hpid]
    simp [handleRoomTimeline, hs, hmem, hsplitA, jsTruthyOpt, ha0A, haddr,
      hpar, hdecA]
  · have haddr : dripAddress a0B = addrB := by simp [dripAddress, hprocB]
    have hpar : dripParachainId a0B = "" := by simp [dripParachainId, hprocB]
    simp [handleRoomTimeline, hs, hmem, hsplitB, jsTruthyOpt, ha0B, haddr,
      hpar, hdecB]

theorem drip_parachain_id_from_suffix_witness :
    (handleRoomTimeline sampleEnv (fun _ => true)
      ⟨"m.room.message", some "@alice:example.org", "!room", "!drip 5ABC:2000"⟩).call =
      some (.postDrip ⟨"5ABC", sampleEnv.DRIP_AMOUNT, "2000", "@alice:example.org"⟩) ∧
    (handleRoomTimeline sampleEnv (fun _ => true)
      ⟨"m.room.message", some "@alice:example.org", "!room", "!drip 5ABC"⟩).call =
      some (.postDrip ⟨"5ABC", sampleEnv.DRIP_AMOUNT, "", "@alice:example.org"⟩) :=
  drip_parachain_id_from_suffix sampleEnv (fun _ => true)
    "@alice:example.org" "!room" "!drip 5ABC:2000" "5ABC:2000" "5ABC" "2000"
    "!drip 5ABC" "5ABC" "5ABC"
    (by decide) (by decide) (by decide) (by decide) (by decide) (by decide)
    rfl (by decide) (by decide) (by decide) rfl

/-- C6: `!balance` issues `GET /balance` with no synchronous reply, and
with 12 decimals and unit `UNIT` the response `{balance:
"5000000000000"}` is answered with exactly
`"The faucet has 5 UNITs remaining."`. -/
theorem balance_reply_formatting (env : Env) (dec : String → Bool)
    (s room : String)
    (hs : ¬(s = "" ∨ s = env.MATRIX_BOT_USER_ID))
    (hmem : s ∉ ignoreListOf env)
    (hdecimals : env.NETWORK_DECIMALS = 12)
    (hunit : env.NETWORK_UNIT = "UNIT") :
    handleRoomTimeline env dec ⟨"m.room.message", some s, room, "!balance"⟩ =
      ⟨[], [], some .getBalance⟩ ∧
    balanceThenMessage env ⟨"5000000000000"⟩ =
      "The faucet has 5 UNITs remaining." := by
  constructor
  · have hb : jsSplitChar ' ' "!balance" = ["!balance"] := by decide
    simp [handleRoomTimeline, hs, hmem, hb]
  · simp only [balanceThenMessage, hdecimals, hunit]
    decide

theorem balance_reply_formatting_witness :
    handleRoomTimeline sampleEnv (fun _ => true)
      ⟨"m.room.message", some "@alice:example.org", "!room", "!balance"⟩ =
      ⟨[], [], some .getBalance⟩ ∧
    balanceThenMessage sampleEnv ⟨"5000000000000"⟩ =
      "The faucet has 5 UNITs remaining." :=
  balance_reply_formatting sampleEnv (fun _ => true) "@alice:example.org"
    "!room" (by decide) (by decide) rfl rfl

/-- C7: a message whose first space-delimited token does not start with
`!` produces no chat message, no warning and no backend call. -/
theorem non_command_no_action (env : Env) (dec : String → Bool)
    (s room body : String)
    (hs : ¬(s = "" ∨ s = env.MATRIX_BOT_USER_ID))
    (hmem : s ∉ ignoreListOf env)
    (hbang : jsStartsWith ((jsSplitChar ' ' body).headD "") "!" = false) :
    handleRoomTimeline env dec ⟨"m.room.message", some s, room, body⟩ =
      ⟨[], [], none⟩ := by
  have h1 : (jsSplitChar ' ' body).headD "" ≠ "!balance" := by
    intro h; rw [h] at hbang; exact absurd hbang (by decide)
  have h2 : (jsSplitChar ' ' body).headD "" ≠ "!drip" := by
    intro h; rw [h] at hbang; exact absurd hbang (by decide)
  have h3 : (jsSplitChar ' ' body).headD "" ≠ "!help" := by
    intro h; rw [h] at hbang; exact absurd hbang (by decide)
  simp only [List.headD_eq_head?] at h1 h2 h3 hbang
  simp [handleRoomTimeline, hs, hmem, h1, h2, h3, hbang]

theorem non_command_no_action_witness :
    handleRoomTimeline sampleEnv (fun _ => true)
      ⟨"m.room.message", some "@alice:example.org", "!room", "hello there"⟩ =
      ⟨[], [], none⟩ :=
  non_command_no_action sampleEnv (fun _ => true) "@alice:example.org"
    "!room" "hello there" (by decide) (by decide) (by decide)

/-- C8: ignore-list parsing removes only the first `"` of each entry, so
a doubly quoted entry keeps its trailing quote and never equals the bare
identifier, and the empty configuration parses to `[""]`, not `[]`. -/
theorem ignore_list_first_quote_only (x : String)
    (hsplit : jsSplitChar ',' ("\"" ++ x ++ "\"") = ["\"" ++ x ++ "\""]) :
    parseIgnoreList ("\"" ++ x ++ "\"") = [x ++ "\""] ∧
    x ++ "\"" ≠ x ∧
    parseIgnoreList "" = [""] := by
  refine ⟨?_, ?_, by decide⟩
  · have hdata : ("\"" ++ x ++ "\"").data = '"' :: (x.data ++ ['"']) := by
      simp [String.data_append]
    have hrep : jsReplaceFirst '"' ("\"" ++ x ++ "\"") = x ++ "\"" := by
      apply String.ext
      rw [jsReplaceFirst, hdata]
      simp [removeFirstChar, String.data_append]
    simp [parseIgnoreList, hsplit, hrep]
  · intro h
    have hlen := congrArg String.length h
    rw [String.length_append] at hlen
    have hq : ("\"" : String).length = 1 := rfl
    rw [hq] at hlen
    omega

theorem ignore_list_first_quote_only_witness :
    parseIgnoreList ("\"" ++ "@user:server" ++ "\"") = ["@user:server" ++ "\""] ∧
    "@user:server" ++ "\"" ≠ "@user:server" ∧
    parseIgnoreList "" = [""] :=
  ignore_list_first_quote_only "@user:server" (by decide)

/-- C9: a trusted sender's non-numeric third token is applied with no
validation — the amount in the POST body is NaN. -/
theorem trusted_nonnumeric_override_sends_nan (env : Env)
    (dec : String → Bool) (s room body a0 a1 : String)
    (hs : ¬(s = "" ∨ s = env.MATRIX_BOT_USER_ID))
    (hmem : s ∉ ignoreListOf env)
    (hsplit : jsSplitChar ' ' body = ["!drip", a0, a1])
    (ha0 : a0 ≠ "") (ha1 : a1 ≠ "")
    (hparity : jsEndsWith s ":matrix.parity.io" = true)
    (hdec : dec (dripAddress a0) = true)
    (hnan : jsToNumber a1 = .nan) :
    (handleRoomTimeline env dec ⟨"m.room.message", some s, room, body⟩).call =
      some (.postDrip ⟨dripAddress a0, .nan, dripParachainId a0, s⟩) := by
  simp [handleRoomTimeline, hs, hmem, hsplit, jsTruthyOpt, ha0, ha1, hparity,
    hdec, hnan]

theorem trusted_nonnumeric_override_sends_nan_witness :
    (handleRoomTimeline sampleEnv (fun _ => true)
      ⟨"m.room.message", some "@u:matrix.parity.io", "!room", "!drip addr lots"⟩).call =
      some (.postDrip ⟨dripAddress "addr", .nan, dripParachainId "addr",
        "@u:matrix.parity.io"⟩) :=
  trusted_nonnumeric_override_sends_nan sampleEnv (fun _ => true)
    "@u:matrix.parity.io" "!room" "!drip addr lots" "addr" "lots"
    (by decide) (by decide) (by decide) (by decide) (by decide) (by decide)
    rfl (by decide)

/-- C10: when the backend's balance field does not coerce to a number,
the `.then` continuation still sends the formatted reply with NaN as the
value — the generic error reply belongs only to the `.catch` branch. -/
theorem balance_nonnumeric_still_formatted (env : Env) (bal : String)
    (hnan : jsToNumber bal = .nan) :
    balanceThenMessage env ⟨bal⟩ =
      "The faucet has NaN " ++ env.NETWORK_UNIT ++ "s remaining." ∧
    balanceThenMessage env ⟨bal⟩ ≠ balanceCatchMessage := by
  have hmsg : balanceThenMessage env ⟨bal⟩ =
      "The faucet has NaN " ++ env.NETWORK_UNIT ++ "s remaining." := by
    simp only [balanceThenMessage, hnan]
    have hdiv : jsDiv .nan (.num (ratPow10 env.NETWORK_DECIMALS)) = .nan := rfl
    rw [hdiv]
    have hfmt : jsNumToString .nan = "NaN" := rfl
    rw [hfmt]
    apply String.ext
    simp [String.data_append]
  refine ⟨hmsg, ?_⟩
  rw [hmsg]
  intro h
  have hdat := congrArg String.data h
  rw [String.data_append, String.data_append] at hdat
  have hT : "The faucet has NaN ".data = 'T' :: "he faucet has NaN ".data := rfl
  rw [hT] at hdat
  simp [balanceCatchMessage, balanceErrorReply] at hdat

theorem balance_nonnumeric_still_formatted_witness :
    balanceThenMessage sampleEnv ⟨"not-a-number"⟩ =
      "The faucet has NaN " ++ sampleEnv.NETWORK_UNIT ++ "s remaining." ∧
    balanceThenMessage sampleEnv ⟨"not-a-number"⟩ ≠ balanceCatchMessage :=
  balance_nonnumeric_still_formatted sampleEnv "not-a-number" (by decide)

end FaucetBot
